import Mathlib

/-!
Verification development for the `rpm_exo` position-environment server.

The repository is Python; this file is a shallow embedding of the parts of
the code that the checked properties concern:

* `position_server/params.py`   — parameter validation and the tuple cache key
* `cache/cache.py`              — hashed-JSON cache key, TTL-partitioned cache,
                                  per-section TTL selection
* `position_server/sections/base.py` — the section runner (`run_section`)
* `position_server/orchestrator.py`  — section fan-out (`fetch_all_sections`)
* `position_server/scheduler.py`     — warmup worker loop and time windows
* `position_server/handlers/position_environment.py` and
  `position_server/cache.py`    — the GET request path with its cache

Python machine-level behaviour is made explicit: strings compare
lexicographically by code point, wall-clock time is passed in as data
(a simulated clock), and a fallible Python call is an `Except String` value.
-/

namespace RpmExo

/-! ## Python string primitives -/

/-- Lexicographic comparison of char lists by code point: the ordering Python
uses for `str <= str` (and for `sorted` / `json.dumps(sort_keys=True)`). -/
def lexLe : List Char → List Char → Bool
  | [], _ => true
  | _ :: _, [] => false
  | a :: as, b :: bs =>
    if a.toNat < b.toNat then true
    else if b.toNat < a.toNat then false
    else lexLe as bs

/-- Python `a <= b` on strings. -/
def pyStrLe (a b : String) : Bool := lexLe a.data b.data

/-- The whitespace predicate behind Python's `str.strip()` and
`str.isspace()` (CPython's `Py_UNICODE_ISSPACE`): code points 9–13, 28–32,
0x85 (NEL), 0xA0 (NBSP), 0x1680 (Ogham space), 0x2000–0x200A (typographic
spaces), 0x2028, 0x2029 (line/paragraph separators), 0x202F, 0x205F and
0x3000 (ideographic space). -/
def pyIsSpace (c : Char) : Bool :=
  let n := c.toNat
  (9 ≤ n && n ≤ 13) || (28 ≤ n && n ≤ 32) || n == 133 || n == 160 ||
  n == 5760 || (8192 ≤ n && n ≤ 8202) || n == 8232 || n == 8233 ||
  n == 8239 || n == 8287 || n == 12288

/-- Source `str.strip()` on the char list: remove leading and trailing whitespace. -/
def stripL (l : List Char) : List Char :=
  ((l.dropWhile pyIsSpace).reverse.dropWhile pyIsSpace).reverse

/-- Python `str.strip()`: remove leading and trailing whitespace. -/
def pyStrip (s : String) : String := ⟨stripL s.data⟩

/-! ## Dynamic Python values

Request fields arrive untyped (query-string values, JSON bodies, warmup
config dicts); `_validate` performs `isinstance` and truthiness checks on
them, so the embedding needs a small dynamic value type. -/

/-- A Python value as seen by the validator. -/
inductive PyVal where
  | none
  | bool (b : Bool)
  | int (n : Int)
  | str (s : String)
  | list (xs : List PyVal)
  | dict (kvs : List (String × PyVal))

/-- Python truthiness (`if not x`). -/
def pyTruthy : PyVal → Bool
  | .none => false
  | .bool b => b
  | .int n => n != 0
  | .str s => s != ""
  | .list xs => !xs.isEmpty
  | .dict kvs => !kvs.isEmpty

/-! ## `datetime.strptime(s, "%Y%m%d")`

CPython compiles `%Y%m%d` to the regex
`(?P<Y>\d\d\d\d)(?P<m>1[0-2]|0[1-9]|[1-9])(?P<d>3[0-1]|[1-2]\d|0[1-9]|[1-9]| [1-9])`,
anchored at the start, and raises unless the whole string is consumed.
Alternation order matters (the regex backtracks), so the model enumerates
the alternatives of each group in regex order and takes the first
combination that consumes the input; the resulting (y, m, d) must then be a
constructible `datetime` (year at least 1, day within the month). -/

def isAsciiDigit (c : Char) : Bool := '0' ≤ c && c ≤ '9'

def digitVal (c : Char) : Nat := c.toNat - 48

/-- Source `%Y`: exactly four digits. -/
def parseY : List Char → Option (Nat × List Char)
  | c1 :: c2 :: c3 :: c4 :: rest =>
    if isAsciiDigit c1 && isAsciiDigit c2 && isAsciiDigit c3 && isAsciiDigit c4 then
      some (digitVal c1 * 1000 + digitVal c2 * 100 + digitVal c3 * 10 + digitVal c4, rest)
    else Option.none
  | _ => Option.none

/-- Source `%m` alternatives, in regex order: `1[0-2] | 0[1-9] | [1-9]`. -/
def mAlts (cs : List Char) : List (Nat × List Char) :=
  (match cs with
   | c1 :: c2 :: rest =>
     (if c1 = '1' && ('0' ≤ c2 && c2 ≤ '2') then [(10 + digitVal c2, rest)] else []) ++
     (if c1 = '0' && ('1' ≤ c2 && c2 ≤ '9') then [(digitVal c2, rest)] else [])
   | _ => []) ++
  (match cs with
   | c1 :: rest => if '1' ≤ c1 && c1 ≤ '9' then [(digitVal c1, rest)] else []
   | [] => [])

/-- Source `%d` alternatives, in regex order:
`3[0-1] | [1-2]\d | 0[1-9] | [1-9] | \x20[1-9]`. -/
def dAlts (cs : List Char) : List (Nat × List Char) :=
  (match cs with
   | c1 :: c2 :: rest =>
     (if c1 = '3' && ('0' ≤ c2 && c2 ≤ '1') then [(30 + digitVal c2, rest)] else []) ++
     (if ('1' ≤ c1 && c1 ≤ '2') && isAsciiDigit c2 then
        [(digitVal c1 * 10 + digitVal c2, rest)] else []) ++
     (if c1 = '0' && ('1' ≤ c2 && c2 ≤ '9') then [(digitVal c2, rest)] else [])
   | _ => []) ++
  (match cs with
   | c1 :: rest => if '1' ≤ c1 && c1 ≤ '9' then [(digitVal c1, rest)] else []
   | [] => []) ++
  (match cs with
   | c1 :: c2 :: rest =>
     if c1 = ' ' && ('1' ≤ c2 && c2 ≤ '9') then [(digitVal c2, rest)] else []
   | _ => [])

def isLeapYear (y : Nat) : Bool := y % 4 = 0 && (y % 100 ≠ 0 || y % 400 = 0)

def daysInMonth (y m : Nat) : Nat :=
  if m = 2 then (if isLeapYear y then 29 else 28)
  else if m = 4 || m = 6 || m = 9 || m = 11 then 30
  else 31

/-- Source `datetime.strptime(s, "%Y%m%d")`: `some (y, m, d)` on success,
`none` where Python raises `ValueError`. -/
def strptimeYmd (s : String) : Option (Nat × Nat × Nat) :=
  match parseY s.data with
  | Option.none => Option.none
  | some (y, r) =>
    match (mAlts r).findSome? (fun md =>
            (dAlts md.2).findSome? (fun dd =>
              if dd.2.isEmpty then some (md.1, dd.1) else Option.none)) with
    | Option.none => Option.none
    | some (m, d) =>
      if 1 ≤ y && d ≤ daysInMonth y m then some (y, m, d) else Option.none

/-- Whether `s` parses under `%Y%m%d` without raising. -/
def parseableYmd (s : String) : Bool := (strptimeYmd s).isSome

/-! ## `position_server/params.py` -/

/-- Source `BaseParams`: container for all global parameters. -/
structure BaseParams where
  env_date : String
  pos_date : String
  books : List String
  time_of_day : String
deriving DecidableEq

/-- Propositional form of `pyStrLe`, for use with `List.insertionSort`. -/
def strLe (a b : String) : Prop := pyStrLe a b = true

instance : DecidableRel strLe := fun a b => by
  unfold strLe; infer_instance

/-- Python `sorted` on a list of strings: the unique nondecreasing
rearrangement under code-point order (realised here by insertion sort). -/
def pySorted (l : List String) : List String := List.insertionSort strLe l

/-- Source `BaseParams.to_cache_key`: hashable tuple, books sorted. -/
def BaseParams.to_cache_key (p : BaseParams) : String × String × List String × String :=
  (p.env_date, p.pos_date, pySorted p.books, p.time_of_day)

/-- The string payload of a `PyVal` known to be a string (the validator only
applies it after an `isinstance(b, str)` check, so the default is unreachable). -/
def pyAsStr : PyVal → String
  | .str s => s
  | _ => ""

/-- The per-book check `isinstance(b, str) and b.strip()`. -/
def bookOk : PyVal → Bool
  | .str s => pyStrip s != ""
  | _ => false

/-- Source `params._validate(env_date, pos_date, books, time_of_day)`:
returns `BaseParams` or raises `ValueError`. -/
def «_validate» (env_date pos_date books time_of_day : PyVal) :
    Except String BaseParams :=
  if !pyTruthy env_date then .error "Missing required parameter: env_date"
  else match env_date with
  | .str envS =>
    if !parseableYmd envS then .error "env_date must be %Y%m%d format"
    else if !pyTruthy pos_date then .error "Missing required parameter: pos_date"
    else match pos_date with
    | .str posS =>
      if !parseableYmd posS then .error "pos_date must be %Y%m%d format"
      else if !pyTruthy books then .error "Missing required parameter: books"
      else match books with
      | .list bs =>
        if bs.isEmpty then .error "books cannot be empty"
        else if !(bs.all bookOk) then .error "books must be non-empty strings"
        else
          if !pyTruthy time_of_day then .error "Missing required parameter: time_of_day"
          else match time_of_day with
          | .str t =>
            if t = "SOD" || t = "EOD" || t = "LIVE" then
              .ok ⟨envS, posS, bs.map (fun b => pyStrip (pyAsStr b)), t⟩
            else .error "time_of_day must be one of SOD, EOD, LIVE"
          | _ => .error "time_of_day must be one of SOD, EOD, LIVE"
      | _ => .error "books must be list"
    | _ => .error "pos_date must be string"
  | _ => .error "env_date must be string"

/-! ## `cache/cache.py` — the hashed-JSON cache key

`build_cache_key(request_data)` is
`hashlib.sha256(json.dumps(request_data, sort_keys=True).encode()).hexdigest()`.
The request dicts it is applied to are flat JSON objects whose values are
strings or lists of strings, which is what `JObj` captures. `json.dumps`
with its default separators renders `", "` between items and `": "` after a
key, and `sort_keys=True` sorts the object keys (and only the keys — array
elements keep their order). SHA-256 is embedded in full (FIPS 180-4), on
`Nat` words reduced mod 2^32. -/

/-- A flat JSON value: a string or an array of strings. -/
inductive JVal where
  | str (s : String)
  | arr (xs : List String)
deriving DecidableEq

/-- A flat JSON object (a Python dict of `JVal`s). -/
abbrev JObj : Type := List (String × JVal)

/-- JSON string escaping as `json.dumps` performs it. The inputs in this
development are printable ASCII, for which only the quote and backslash
escapes can fire; `\uXXXX` escaping of control and non-ASCII characters is
not reached. -/
def jsonEscapeChar (c : Char) : List Char :=
  if c = '"' then ['\\', '"']
  else if c = '\\' then ['\\', '\\']
  else if c = '\n' then ['\\', 'n']
  else if c = '\t' then ['\\', 't']
  else if c = '\r' then ['\\', 'r']
  else [c]

/-- A JSON string literal: `"..."` with escapes. -/
def quoteJson (s : String) : String :=
  ⟨'"' :: s.data.foldr (fun c acc => jsonEscapeChar c ++ acc) ['"']⟩

/-- Render one value (`json.dumps` on a string or list-of-strings value). -/
def dumpsJVal : JVal → String
  | .str s => quoteJson s
  | .arr xs => "[" ++ String.intercalate ", " (xs.map quoteJson) ++ "]"

/-- Ordering of key/value pairs by key, as `sort_keys=True` sorts them. -/
def keyLe (a b : String × JVal) : Prop := pyStrLe a.1 b.1 = true

instance : DecidableRel keyLe := fun a b => by
  unfold keyLe; infer_instance

/-- Source `json.dumps(d, sort_keys=True)` on a flat dict. -/
def dumps (d : JObj) : String :=
  "\x7b" ++
    String.intercalate ", "
      ((List.insertionSort keyLe d).map (fun kv => quoteJson kv.1 ++ ": " ++ dumpsJVal kv.2)) ++
  "\x7d"

/-- UTF-8 encoding of a string (`str.encode()`), as a list of byte values. -/
def utf8Bytes (s : String) : List Nat :=
  s.data.foldr (fun c acc =>
    let n := c.toNat
    (if n < 128 then [n]
     else if n < 2048 then [192 + n / 64, 128 + n % 64]
     else if n < 65536 then [224 + n / 4096, 128 + n / 64 % 64, 128 + n % 64]
     else [240 + n / 262144, 128 + n / 4096 % 64, 128 + n / 64 % 64, 128 + n % 64]) ++ acc) []

/-! ### SHA-256 (FIPS 180-4) -/

/-- Reduce to a 32-bit word. -/
def w32 (n : Nat) : Nat := n % 4294967296

/-- Rotate a 32-bit word right by `n`. -/
def rotr (x n : Nat) : Nat := w32 ((x >>> n) ||| (x <<< (32 - n)))

def bigSigma0 (x : Nat) : Nat := rotr x 2 ^^^ rotr x 13 ^^^ rotr x 22

def bigSigma1 (x : Nat) : Nat := rotr x 6 ^^^ rotr x 11 ^^^ rotr x 25

def smallSigma0 (x : Nat) : Nat := rotr x 7 ^^^ rotr x 18 ^^^ (x >>> 3)

def smallSigma1 (x : Nat) : Nat := rotr x 17 ^^^ rotr x 19 ^^^ (x >>> 10)

/-- The sixty-four SHA-256 round constants. -/
def sha256K : List Nat :=
  [1116352408, 1899447441, 3049323471, 3921009573, 961987163,
   1508970993, 2453635748, 2870763221, 3624381080, 310598401,
   607225278, 1426881987, 1925078388, 2162078206, 2614888103,
   3248222580, 3835390401, 4022224774, 264347078, 604807628,
   770255983, 1249150122, 1555081692, 1996064986, 2554220882,
   2821834349, 2952996808, 3210313671, 3336571891, 3584528711,
   113926993, 338241895, 666307205, 773529912, 1294757372,
   1396182291, 1695183700, 1986661051, 2177026350, 2456956037,
   2730485921, 2820302411, 3259730800, 3345764771, 3516065817,
   3600352804, 4094571909, 275423344, 430227734, 506948616,
   659060556, 883997877, 958139571, 1322822218, 1537002063,
   1747873779, 1955562222, 2024104815, 2227730452, 2361852424,
   2428436474, 2756734187, 3204031479, 3329325298]

/-- The initial hash state. -/
def sha256H0 : List Nat :=
  [1779033703, 3144134277, 1013904242, 2773480762, 1359893119,
   2600822924, 528734635, 1541459225]

/-- Big-endian bytes of `n` on `k` bytes. -/
def beBytes : Nat → Nat → List Nat
  | 0, _ => []
  | k + 1, n => beBytes k (n / 256) ++ [n % 256]

/-- Append the `0x80` byte, zero padding to 56 mod 64, and the 64-bit
big-endian message bit length. -/
def padMsg (msg : List Nat) : List Nat :=
  msg ++ 0x80 :: List.replicate ((119 - msg.length % 64) % 64) 0
      ++ beBytes 8 (msg.length * 8)

/-- Group bytes into big-endian 32-bit words. -/
def bytesToWords : List Nat → List Nat
  | b0 :: b1 :: b2 :: b3 :: rest =>
    (b0 * 16777216 + b1 * 65536 + b2 * 256 + b3) :: bytesToWords rest
  | _ => []

/-- Group words into 16-word blocks. -/
def wordsToBlocks : List Nat → List (List Nat)
  | w0 :: w1 :: w2 :: w3 :: w4 :: w5 :: w6 :: w7 :: w8 :: w9 :: w10 :: w11
      :: w12 :: w13 :: w14 :: w15 :: rest =>
    [w0, w1, w2, w3, w4, w5, w6, w7, w8, w9, w10, w11, w12, w13, w14, w15]
      :: wordsToBlocks rest
  | _ => []

/-- Extend a 16-word block to the 64-word message schedule. -/
def schedule (block : List Nat) : List Nat :=
  (List.range 48).foldl (fun w i =>
    w ++ [w32 (smallSigma1 (w.getD (i + 14) 0) + w.getD (i + 9) 0 +
               smallSigma0 (w.getD (i + 1) 0) + w.getD i 0)]) block

/-- One round of the compression function on state `[a,b,c,d,e,f,g,h]`. -/
def compressStep (st : List Nat) (kw : Nat × Nat) : List Nat :=
  match st with
  | [a, b, c, d, e, f, g, h] =>
    let ch := (e &&& f) ^^^ ((4294967295 ^^^ e) &&& g)
    let temp1 := w32 (h + bigSigma1 e + ch + kw.1 + kw.2)
    let maj := (a &&& b) ^^^ (a &&& c) ^^^ (b &&& c)
    let temp2 := w32 (bigSigma0 a + maj)
    [w32 (temp1 + temp2), a, b, c, w32 (d + temp1), e, f, g]
  | _ => st

/-- Compress one block into the hash state. -/
def compressBlock (h : List Nat) (block : List Nat) : List Nat :=
  let st := (sha256K.zip (schedule block)).foldl compressStep h
  (h.zip st).map (fun p => w32 (p.1 + p.2))

/-- SHA-256 of a byte sequence, as eight 32-bit words. -/
def sha256Words (msg : List Nat) : List Nat :=
  (wordsToBlocks (bytesToWords (padMsg msg))).foldl compressBlock sha256H0

/-- Eight lowercase hex digits of a 32-bit word. -/
def wordToHex (n : Nat) : List Char :=
  [Nat.digitChar (n / 268435456 % 16), Nat.digitChar (n / 16777216 % 16),
   Nat.digitChar (n / 1048576 % 16), Nat.digitChar (n / 65536 % 16),
   Nat.digitChar (n / 4096 % 16), Nat.digitChar (n / 256 % 16),
   Nat.digitChar (n / 16 % 16), Nat.digitChar (n % 16)]

/-- Source `hashlib.sha256(bytes).hexdigest()`. -/
def sha256Hex (msg : List Nat) : String :=
  ⟨(sha256Words msg).foldr (fun w acc => wordToHex w ++ acc) []⟩

/-- Source `cache.build_cache_key(request_data)`. -/
def build_cache_key (request_data : JObj) : String :=
  sha256Hex (utf8Bytes (dumps request_data))

/-! ## `cache/cache.py` — `RequestCache` over `cachetools.TTLCache`

`RequestCache` keeps one `TTLCache` per TTL value, created lazily by
`_get_cache`. `TTLCache` (an external dependency, modelled from its
documented behaviour) stamps each entry with `expires = now + ttl` at
insertion, overwrites on re-insertion of the same key, and treats an entry
as missing once `now >= expires`. Time is the simulated clock `now : Nat`
passed to each operation. The per-partition LRU capacity bound (default
1000 entries, a best-effort memory bound) is not modelled; no property here
exercises more entries than any bound. -/

/-- One `TTLCache`: entries `key -> (value, expires_at)`. -/
abbrev Partition (V : Type) : Type := List (String × V × Nat)

/-- Lookup in a partition at time `now` (`TTLCache.get`): absent if the key
was never written or its lifetime has elapsed. -/
def partitionGet (p : Partition V) (key : String) (now : Nat) : Option V :=
  match p.find? (fun e => e.1 == key) with
  | some e => if now < e.2.2 then some e.2.1 else Option.none
  | Option.none => Option.none

/-- Insertion into a partition (`TTLCache.__setitem__`): overwrite any
existing entry for the key (keeping its dict position) and reset its
expiry, or append a fresh entry. -/
def partitionSet : Partition V → String → V → Nat → Partition V
  | [], key, v, expires => [(key, v, expires)]
  | e :: rest, key, v, expires =>
    if e.1 == key then (key, v, expires) :: rest
    else e :: partitionSet rest key v expires

/-- Source `RequestCache`: a dict of `TTLCache` instances, one per TTL value. -/
structure RequestCache (V : Type) where
  caches : List (Nat × Partition V)

/-- Source `RequestCache()` — no partitions yet. -/
def RequestCache.empty : RequestCache V := ⟨[]⟩

/-- Source `RequestCache._get_cache(ttl)`: the partition for `ttl` (lazily created
in the source; observationally, a missing partition reads as empty). -/
def RequestCache.getCacheFor (c : RequestCache V) (ttl : Nat) : Partition V :=
  (((c.caches.find? (fun e => e.1 == ttl)).map (fun e => e.2)).getD [])

/-- Source `RequestCache.get(key, ttl)` at simulated time `now`. -/
def RequestCache.get (c : RequestCache V) (key : String) (ttl : Nat) (now : Nat) :
    Option V :=
  partitionGet (c.getCacheFor ttl) key now

/-- Update or create the partition for `ttl` (`_get_cache` then insert). -/
def setInCaches : List (Nat × Partition V) → Nat → String → V → Nat →
    List (Nat × Partition V)
  | [], ttl, key, v, expires => [(ttl, partitionSet [] key v expires)]
  | e :: rest, ttl, key, v, expires =>
    if e.1 == ttl then (e.1, partitionSet e.2 key v expires) :: rest
    else e :: setInCaches rest ttl key v expires

/-- Source `RequestCache.set(key, value, ttl)` at simulated time `now`. -/
def RequestCache.set (c : RequestCache V) (key : String) (v : V) (ttl : Nat)
    (now : Nat) : RequestCache V :=
  ⟨setInCaches c.caches ttl key v (now + ttl)⟩

/-! ## `config.py` and `cache.get_ttl_for_sections` -/

/-- Source `config.DEFAULT_CACHE_TTL` (seconds). -/
def DEFAULT_CACHE_TTL : Nat := 60

/-- Source `config.SECTION_TTL`. -/
def SECTION_TTL : List (String × Nat) :=
  [("futures", 60), ("bonds", 60), ("ir_delta", 60), ("new_trades", 30)]

/-- Source `SECTION_TTL.get(s, DEFAULT_CACHE_TTL)`. -/
def sectionTtl (s : String) : Nat :=
  (((SECTION_TTL.find? (fun e => e.1 == s)).map (fun e => e.2)).getD DEFAULT_CACHE_TTL)

/-- Source `cache.get_ttl_for_sections(sections)`: the minimum TTL over the
requested sections, defaulting per section and overall. -/
def get_ttl_for_sections (sections : List String) : Nat :=
  if sections.isEmpty then DEFAULT_CACHE_TTL
  else
    match sections.map sectionTtl with
    | [] => DEFAULT_CACHE_TTL
    | t :: rest => rest.foldl min t

/-! ## `position_server/sections/base.py` — the section runner

`run_section` wraps one fetcher call with timing and error isolation. A
fetcher is a Python callable that either returns a payload or raises; here
it is an `Except String α`. The wall clock is passed in: `startT`/`endT`
are the `time.time()` readings (in ms) around the call and `nowIso` is the
`datetime.now(timezone.utc).isoformat()` reading. On an exception the
recorded `error_stack` is `traceback.format_exc()`, which always begins
with the traceback header line, followed by the exception description. -/

/-- The result envelope of `run_section` (the `metadata` sub-dict fields
are inlined). -/
structure SectionResult (α : Type) where
  data : Option α
  last_updated : Option String
  status : String
  refresh_duration_ms : Nat
  error_stack : String
deriving DecidableEq

/-- Source `run_section(fetcher_fn, params, section_params, timeout)`. The timeout
is accepted and ignored, as in the source (no enforcement). -/
def run_section (fetcher_fn : BaseParams → PyVal → Except String α)
    (params : BaseParams) (section_params : PyVal) (timeout : Nat)
    (startT endT : Nat) (nowIso : String) : SectionResult α :=
  let _ := timeout
  match fetcher_fn params section_params with
  | .ok data =>
      { data := some data, last_updated := some nowIso, status := "ok",
        refresh_duration_ms := endT - startT, error_stack := "" }
  | .error e =>
      { data := Option.none, last_updated := Option.none, status := "error",
        refresh_duration_ms := endT - startT,
        error_stack := "Traceback (most recent call last):\n" ++ e }

/-! ## `position_server/sections/futures.py` / `bonds.py` — the fetchers -/

/-- Python `d.get(k, default)` on a `PyVal` dict. -/
def pyDictGet (d : PyVal) (k : String) (dflt : PyVal) : PyVal :=
  match d with
  | .dict kvs => (((kvs.find? (fun e => e.1 == k)).map (fun e => e.2)).getD dflt)
  | _ => dflt

/-- Source `get_futures(params, **section_params)`. -/
def get_futures (params : BaseParams) (section_params : PyVal) :
    Except String PyVal :=
  match pyDictGet section_params "live_price_overrides" (.dict []) with
  | .dict ov =>
      .ok (.dict [("placeholder", .bool true),
                  ("env_date", .str params.env_date),
                  ("pos_date", .str params.pos_date),
                  ("books", .list (params.books.map PyVal.str)),
                  ("time_of_day", .str params.time_of_day),
                  ("overrides_applied", .dict ov)])
  | _ => .error "ValueError: live_price_overrides must be dict"

/-- Source `get_bonds(params, **section_params)`. -/
def get_bonds (params : BaseParams) (section_params : PyVal) :
    Except String PyVal :=
  match pyDictGet section_params "exclude_isins" (.list []) with
  | .list ex =>
      .ok (.dict [("placeholder", .bool true),
                  ("env_date", .str params.env_date),
                  ("pos_date", .str params.pos_date),
                  ("books", .list (params.books.map PyVal.str)),
                  ("time_of_day", .str params.time_of_day),
                  ("excluded_isins", .list ex)])
  | _ => .error "ValueError: exclude_isins must be list"

/-! ## `position_server/orchestrator.py` -/

/-- Source `position_server.config.TIMEOUTS` (without the `"default"` entry, which
is the fallback below). -/
def TIMEOUTS : List (String × Nat) := [("futures", 60), ("bonds", 60)]

/-- Source `config.TIMEOUTS.get(name, config.TIMEOUTS["default"])`. -/
def timeoutFor (name : String) : Nat :=
  (((TIMEOUTS.find? (fun e => e.1 == name)).map (fun e => e.2)).getD 60)

/-- The fan-out loop of `fetch_all_sections`: submit `run_section` for every
entry of the section table and collect `name -> SectionResult`, keyed by the
requested names. The sections run concurrently in the source; each one's
result depends only on its own fetcher, parameters and clock, which is what
the map over the table expresses. -/
def fetchSections (secs : List (String × (BaseParams → PyVal → Except String α) × PyVal))
    (params : BaseParams) (clock : String → Nat × Nat × String) :
    List (String × SectionResult α) :=
  secs.map (fun nfp =>
    (nfp.1, run_section nfp.2.1 params nfp.2.2 (timeoutFor nfp.1)
      (clock nfp.1).1 (clock nfp.1).2.1 (clock nfp.1).2.2))

/-- The `sections_to_fetch` table built by `fetch_all_sections`:
name, fetcher, and `section_params.get(name, \x7b\x7d)`. -/
def sectionsToFetch (section_params : PyVal) :
    List (String × (BaseParams → PyVal → Except String PyVal) × PyVal) :=
  [("futures", get_futures, pyDictGet section_params "futures" (.dict [])),
   ("bonds", get_bonds, pyDictGet section_params "bonds" (.dict []))]

/-- Source `fetch_all_sections(params, section_params)`; `section_params or \x7b\x7d`
is reflected by `pyDictGet` returning the default for a non-dict. -/
def fetch_all_sections (params : BaseParams) (section_params : PyVal)
    (clock : String → Nat × Nat × String) : List (String × SectionResult PyVal) :=
  fetchSections (sectionsToFetch section_params) params clock

/-! ## `position_server/cache.py` — the request-path cache

A plain dict `key -> (sections, cached_at)` under a lock; no TTL. -/

/-- The tuple cache key produced by `BaseParams.to_cache_key`. -/
abbrev PSCacheKey : Type := String × String × List String × String

/-- The aggregate payload: section name -> section result. -/
abbrev SectionsMap : Type := List (String × SectionResult PyVal)

/-- Source `_cache : key -> (sections, cached_at)`. -/
abbrev PSCache : Type := List (PSCacheKey × SectionsMap × String)

/-- Source `get_from_cache(key)`. -/
def get_from_cache (c : PSCache) (key : PSCacheKey) : Option SectionsMap :=
  ((c.find? (fun e => e.1 == key)).map (fun e => e.2.1))

/-- Source `write_to_cache(key, sections)` (dict assignment: overwrite in place or
insert), stamping `cached_at`. -/
def write_to_cache : PSCache → PSCacheKey → SectionsMap → String → PSCache
  | [], key, sections, cached_at => [(key, sections, cached_at)]
  | e :: rest, key, sections, cached_at =>
    if e.1 == key then (key, sections, cached_at) :: rest
    else e :: write_to_cache rest key sections cached_at

/-! ## `position_server/handlers/position_environment.py` — GET -/

/-- Python `s.split(",")` on the char level. -/
def splitCommaL : List Char → List Char → List String
  | [], acc => [⟨acc.reverse⟩]
  | c :: rest, acc =>
    if c = ',' then ⟨acc.reverse⟩ :: splitCommaL rest []
    else splitCommaL rest (c :: acc)

/-- Python `s.split(",")`; note `"".split(",") == [""]`. -/
def pySplitComma (s : String) : List String := splitCommaL s.data []

/-- Source `params.extract_from_get`: pull the four query arguments (each present
or absent), split `books` on commas and strip each element, then validate.
`if books_raw else None` makes an absent or empty `books` argument `None`. -/
def extract_from_get (env_date pos_date books_raw time_of_day : Option String) :
    Except String BaseParams :=
  let toPy : Option String → PyVal := fun o => match o with
    | some s => .str s
    | Option.none => .none
  let books : PyVal := match books_raw with
    | some raw =>
        if raw != "" then .list ((pySplitComma raw).map (fun b => .str (pyStrip b)))
        else .none
    | Option.none => .none
  «_validate» (toPy env_date) (toPy pos_date) books (toPy time_of_day)

/-- What the handler writes back, restricted to the fields the checked
properties concern. -/
structure GetResponse where
  cache_hit : Bool
  error : Bool
  sections : Option SectionsMap

/-- Observable server state: the request cache plus the log of fetcher
invocations (one entry per section fetch submitted, recorded for the
fan-out the handler performs). -/
structure ServerState where
  cache : PSCache
  fetch_log : List String

/-- Source `PositionEnvironmentHandler.get`: extract and validate, probe the cache
under the tuple key, and on a miss fan out all sections and store the
aggregate; on any raised failure answer with `_write_error`. -/
def handler_get (env_date pos_date books_raw time_of_day : Option String)
    (st : ServerState) (clock : String → Nat × Nat × String) (nowIso : String) :
    GetResponse × ServerState :=
  match extract_from_get env_date pos_date books_raw time_of_day with
  | .error _ => ({ cache_hit := false, error := true, sections := Option.none }, st)
  | .ok params =>
    let key := params.to_cache_key
    match get_from_cache st.cache key with
    | some cached =>
        ({ cache_hit := true, error := false, sections := some cached }, st)
    | Option.none =>
        let sections := fetch_all_sections params .none clock
        ({ cache_hit := false, error := false, sections := some sections },
         { cache := write_to_cache st.cache key sections nowIso,
           fetch_log := st.fetch_log ++ (sectionsToFetch .none).map (fun s => s.1) })

/-! ## `position_server/scheduler.py`

`_in_time_window` compares `"HH:MM"` strings with Python string
comparison. One warmup worker runs per config: it builds its fixed
parameters once (`config_error` and permanent exit on a `ValueError`) and
then loops forever, each tick checking the window, orchestrating inside it
and recording status. The loop is driven here by `fuel` (a number of ticks
to unfold — the real loop is unbounded) and a per-tick environment giving
the clock reading and the orchestration outcome. Every status-table write
the worker makes is recorded in order as `(job name, new record)`. -/

/-- Source `_in_time_window(start_time, end_time)` with the
`datetime.now().strftime("%H:%M")` reading passed in as `now`. -/
def _in_time_window (start_time end_time now : String) : Bool :=
  if pyStrLe start_time end_time then
    pyStrLe start_time now && pyStrLe now end_time
  else
    pyStrLe start_time now || pyStrLe now end_time

/-- Source `strftime("%H:%M")` of a clock reading `(h, m)`: zero-padded digits. -/
def fmtHM (h m : Nat) : String :=
  ⟨[Nat.digitChar (h / 10), Nat.digitChar (h % 10), ':',
    Nat.digitChar (m / 10), Nat.digitChar (m % 10)]⟩

/-- One `_warmup_status[name]` record. -/
structure JobStatus where
  status : String
  in_time_window : Bool
  last_run : Option String
  last_duration_ms : Option Nat
  last_error : Option String
deriving DecidableEq

/-- The record `start_all_warmup_workers` installs before launching a job. -/
def startingStatus : JobStatus :=
  { status := "starting", in_time_window := false, last_run := Option.none,
    last_duration_ms := Option.none, last_error := Option.none }

/-- One warmup config entry: name, the fixed parameter dict, and the
schedule (window and interval). -/
structure WarmupCfg where
  name : String
  fields : PyVal
  start_time : String
  end_time : String
  interval_seconds : Nat

/-- Source `params.build_from_dict(cfg)`. -/
def build_from_dict (d : PyVal) : Except String BaseParams :=
  «_validate» (pyDictGet d "env_date" .none) (pyDictGet d "pos_date" .none)
    (pyDictGet d "books" .none) (pyDictGet d "time_of_day" .none)

/-- What one tick of a worker observes: the wall-clock `"HH:MM"` reading,
the outcome of `fetch_all_sections_sync` (result or raised failure), the
measured duration, and the `utcnow` timestamp. -/
structure TickEnv where
  nowHM : String
  orch : Except String SectionsMap
  duration_ms : Nat
  nowIso : String

/-- Everything a worker run did: its status-table writes in order, the
orchestration ticks performed, the cache writes performed, and whether the
worker function returned (exited permanently). -/
structure WorkerRun where
  statusTrace : List (String × JobStatus)
  orch_count : Nat
  cache_writes : List PSCacheKey
  exited : Bool
deriving DecidableEq

/-- Prepend one status write. -/
def WorkerRun.addStatus (w : WorkerRun) (name : String) (s : JobStatus) : WorkerRun :=
  { w with statusTrace := (name, s) :: w.statusTrace }

/-- The `while True` body of `_warmup_worker`, unfolded `fuel` times. -/
def workerLoop (cfg : WarmupCfg) (params : BaseParams) (env : Nat → TickEnv) :
    Nat → Nat → JobStatus → WorkerRun
  | _, 0, _ => { statusTrace := [], orch_count := 0, cache_writes := [], exited := false }
  | tick, fuel + 1, cur =>
    let e := env tick
    let inw := _in_time_window cfg.start_time cfg.end_time e.nowHM
    let s1 := { cur with in_time_window := inw }
    if inw then
      let s2 := { s1 with status := "running" }
      match e.orch with
      | .ok _result =>
          let s3 := { s2 with
                      status := "idle"
                      last_run := some e.nowIso
                      last_duration_ms := some e.duration_ms
                      last_error := Option.none }
          let rest := workerLoop cfg params env (tick + 1) fuel s3
          { rest with
            statusTrace := (cfg.name, s1) :: (cfg.name, s2) :: (cfg.name, s3) :: rest.statusTrace,
            orch_count := rest.orch_count + 1,
            cache_writes := params.to_cache_key :: rest.cache_writes }
      | .error err =>
          let s3 := { s2 with status := "error", last_error := some err }
          let rest := workerLoop cfg params env (tick + 1) fuel s3
          { rest with
            statusTrace := (cfg.name, s1) :: (cfg.name, s2) :: (cfg.name, s3) :: rest.statusTrace,
            orch_count := rest.orch_count + 1 }
    else
      let s2 := { s1 with status := "outside_window" }
      let rest := workerLoop cfg params env (tick + 1) fuel s2
      { rest with
        statusTrace := (cfg.name, s1) :: (cfg.name, s2) :: rest.statusTrace }

/-- Source `_warmup_worker(cfg)`: build the fixed parameters once; on a
`ValueError` record `config_error` with the failure description and return
(no tick ever runs); otherwise loop. -/
def _warmup_worker (cfg : WarmupCfg) (env : Nat → TickEnv) (fuel : Nat) : WorkerRun :=
  match build_from_dict cfg.fields with
  | .error e =>
      { statusTrace := [(cfg.name,
          { startingStatus with status := "config_error", last_error := some e })],
        orch_count := 0, cache_writes := [], exited := true }
  | .ok params => workerLoop cfg params env 0 fuel startingStatus

/-- The status table `_warmup_status`, applied write by write. -/
def applyTrace (table : String → JobStatus) :
    List (String × JobStatus) → String → JobStatus
  | [], t => table t
  | (n, s) :: rest, t =>
      applyTrace (fun t' => if t' = n then s else table t') rest t

/-! ## Properties of the Python string order -/

theorem lexLe_nil (l : List Char) : lexLe [] l = true := by
  cases l <;> rfl

theorem lexLe_total (l1 l2 : List Char) : lexLe l1 l2 = true ∨ lexLe l2 l1 = true := by
  induction l1 generalizing l2 with
  | nil => exact Or.inl (lexLe_nil l2)
  | cons a as ih =>
    cases l2 with
    | nil => exact Or.inr (lexLe_nil _)
    | cons b bs =>
      rcases Nat.lt_trichotomy a.toNat b.toNat with h | h | h
      · left; simp [lexLe, h]
      · rcases ih bs with h2 | h2
        · left; simp [lexLe, h, Nat.lt_irrefl, h2]
        · right; simp [lexLe, h, Nat.lt_irrefl, h2]
      · right; simp [lexLe, h]

theorem lexLe_cons (a b : Char) (as bs : List Char) :
    lexLe (a :: as) (b :: bs) = true ↔
      a.toNat < b.toNat ∨ (a.toNat = b.toNat ∧ lexLe as bs = true) := by
  by_cases h1 : a.toNat < b.toNat
  · simp [lexLe, h1]
  · by_cases h2 : b.toNat < a.toNat
    · simp [lexLe, h1, h2]; omega
    · have he : a.toNat = b.toNat := by omega
      simp [lexLe, h1, h2, he]

theorem lexLe_trans {l1 l2 l3 : List Char} (h12 : lexLe l1 l2 = true)
    (h23 : lexLe l2 l3 = true) : lexLe l1 l3 = true := by
  induction l1 generalizing l2 l3 with
  | nil => exact lexLe_nil l3
  | cons a as ih =>
    cases l2 with
    | nil => simp [lexLe] at h12
    | cons b bs =>
      cases l3 with
      | nil => simp [lexLe] at h23
      | cons c cs =>
        rw [lexLe_cons] at h12 h23 ⊢
        rcases h12 with h | ⟨h, hrest⟩ <;> rcases h23 with h2 | ⟨h2, hrest2⟩
        · left; omega
        · left; omega
        · left; omega
        · exact Or.inr ⟨by omega, ih hrest hrest2⟩

theorem char_toNat_inj {a b : Char} (h : a.toNat = b.toNat) : a = b :=
  Char.ext (UInt32.ext h)

theorem lexLe_antisymm {l1 l2 : List Char} (h12 : lexLe l1 l2 = true)
    (h21 : lexLe l2 l1 = true) : l1 = l2 := by
  induction l1 generalizing l2 with
  | nil =>
    cases l2 with
    | nil => rfl
    | cons b bs => simp [lexLe] at h21
  | cons a as ih =>
    cases l2 with
    | nil => simp [lexLe] at h12
    | cons b bs =>
      rw [lexLe_cons] at h12 h21
      rcases h12 with h | ⟨h, hrest⟩
      · rcases h21 with h2 | ⟨h2, _⟩ <;> omega
      · rcases h21 with h2 | ⟨_, hrest2⟩
        · omega
        · rw [char_toNat_inj h, ih hrest hrest2]

theorem pyStrLe_refl (s : String) : pyStrLe s s = true := by
  unfold pyStrLe
  induction s.data with
  | nil => rfl
  | cons a as ih => simp [lexLe, ih]

instance : IsTotal String strLe :=
  ⟨fun a b => lexLe_total a.data b.data⟩

instance : IsTrans String strLe :=
  ⟨fun _ _ _ h1 h2 => lexLe_trans h1 h2⟩

instance : IsAntisymm String strLe :=
  ⟨fun a b h1 h2 => by
    cases a; cases b
    exact congrArg String.mk (lexLe_antisymm h1 h2)⟩

/-- Python `sorted` depends only on the multiset of strings: permuted
inputs sort to the same list. -/
theorem pySorted_perm {l1 l2 : List String} (h : l1.Perm l2) :
    pySorted l1 = pySorted l2 :=
  List.eq_of_perm_of_sorted
    (((List.perm_insertionSort strLe l1).trans h).trans
      (List.perm_insertionSort strLe l2).symm)
    (List.sorted_insertionSort strLe l1)
    (List.sorted_insertionSort strLe l2)

/-! ## Properties of `str.strip()` -/

/-- C1 (amended): for validated `ParameterSet`s equal in `env_date`,
`pos_date` and `time_of_day` whose books lists are permutations of each
other, the sorted-tuple key builder (`BaseParams.to_cache_key`) produces
the same key. (The hashed-JSON builder `build_cache_key` does not satisfy
this — see the counterexample — so the claim holds for the sorted-tuple
strategy only.) -/
theorem C1_tuple_key_books_order (P1 P2 : BaseParams)
    (henv : P1.env_date = P2.env_date) (hpos : P1.pos_date = P2.pos_date)
    (htod : P1.time_of_day = P2.time_of_day) (hbooks : P1.books.Perm P2.books) :
    P1.to_cache_key = P2.to_cache_key := by
  unfold BaseParams.to_cache_key
  rw [henv, hpos, htod, pySorted_perm hbooks]

/-- C1 witness: the tuple-key equality at a concrete pair of parameter
sets differing only in book order. -/
theorem C1_tuple_key_books_order_witness :
    (["A", "B"] : List String).Perm ["B", "A"] ∧
    BaseParams.to_cache_key ⟨"20250101", "20241231", ["A", "B"], "LIVE"⟩ =
      BaseParams.to_cache_key ⟨"20250101", "20241231", ["B", "A"], "LIVE"⟩ :=
  ⟨by decide,
   C1_tuple_key_books_order ⟨"20250101", "20241231", ["A", "B"], "LIVE"⟩
     ⟨"20250101", "20241231", ["B", "A"], "LIVE"⟩ rfl rfl rfl (by decide)⟩

/-- C1 counterexample: the hashed-JSON key builder `build_cache_key`
(`sha256` of `json.dumps(..., sort_keys=True)`) gives different keys for
the same parameters with the books list permuted — `sort_keys` sorts the
object keys, not the array elements. -/
theorem C1_hashed_json_key_counterexample :
    build_cache_key
      [("books", .arr ["A", "B"]), ("env_date", .str "20250101"),
       ("pos_date", .str "20241231"), ("time_of_day", .str "LIVE")] ≠
    build_cache_key
      [("books", .arr ["B", "A"]), ("env_date", .str "20250101"),
       ("pos_date", .str "20241231"), ("time_of_day", .str "LIVE")] := by
  decide

/-! ## Claim C3 -/

/-- C3: `run_section` always returns a `SectionResult` envelope: on fetcher
success, status `ok` with the wall-clock duration and `last_updated`
recorded; on any fetcher failure, status `error`, empty data, empty
`last_updated`, a non-empty failure description, and the duration still
recorded. -/
theorem C3_run_section_envelope {α : Type}
    (fetcher_fn : BaseParams → PyVal → Except String α) (params : BaseParams)
    (section_params : PyVal) (timeout startT endT : Nat) (nowIso : String) :
    (∀ d, fetcher_fn params section_params = .ok d →
      run_section fetcher_fn params section_params timeout startT endT nowIso =
        { data := some d, last_updated := some nowIso, status := "ok",
          refresh_duration_ms := endT - startT, error_stack := "" }) ∧
    (∀ e, fetcher_fn params section_params = .error e →
      (run_section fetcher_fn params section_params timeout startT endT nowIso).status
          = "error" ∧
      (run_section fetcher_fn params section_params timeout startT endT nowIso).data
          = Option.none ∧
      (run_section fetcher_fn params section_params timeout startT endT nowIso).last_updated
          = Option.none ∧
      (run_section fetcher_fn params section_params timeout startT endT nowIso).error_stack
          ≠ "" ∧
      (run_section fetcher_fn params section_params timeout startT endT nowIso).refresh_duration_ms
          = endT - startT) := by
  constructor
  · intro d hd
    unfold run_section
    rw [hd]
  · intro e he
    unfold run_section
    rw [he]
    refine ⟨rfl, rfl, rfl, ?_, rfl⟩
    intro h
    have h2 := congrArg String.data h
    simp [String.data_append] at h2

/-- C3 witness: the envelope at a concrete succeeding fetcher and a
concrete raising fetcher. -/
theorem C3_run_section_envelope_witness :
    run_section (fun _ _ => (Except.ok (PyVal.int 7) : Except String PyVal))
        ⟨"20250101", "20241231", ["A"], "LIVE"⟩ (.dict []) 60 1000 1180 "t1" =
      { data := some (PyVal.int 7), last_updated := some "t1", status := "ok",
        refresh_duration_ms := 180, error_stack := "" } ∧
    (run_section (fun _ _ => (Except.error "boom" : Except String PyVal))
        ⟨"20250101", "20241231", ["A"], "LIVE"⟩ (.dict []) 60 1000 1180 "t1").status
      = "error" :=
  ⟨(C3_run_section_envelope (fun _ _ => (Except.ok (PyVal.int 7) : Except String PyVal))
      ⟨"20250101", "20241231", ["A"], "LIVE"⟩ (.dict []) 60 1000 1180 "t1").1
      (PyVal.int 7) rfl,
   ((C3_run_section_envelope (fun _ _ => (Except.error "boom" : Except String PyVal))
      ⟨"20250101", "20241231", ["A"], "LIVE"⟩ (.dict []) 60 1000 1180 "t1").2
      "boom" rfl).1⟩

/-! ## Claim C9 -/

theorem foldl_min_le_init (l : List Nat) (a : Nat) : l.foldl min a ≤ a := by
  induction l generalizing a with
  | nil => exact Nat.le_refl a
  | cons x xs ih => exact Nat.le_trans (ih (min a x)) (Nat.min_le_left a x)

theorem foldl_min_le_mem (l : List Nat) (a : Nat) :
    ∀ x ∈ l, l.foldl min a ≤ x := by
  induction l generalizing a with
  | nil => intro x hx; cases hx
  | cons y ys ih =>
    intro x hx
    rcases List.mem_cons.mp hx with h | h
    · subst h
      exact Nat.le_trans (foldl_min_le_init ys (min a x)) (Nat.min_le_right a x)
    · exact ih (min a y) x h

theorem foldl_min_mem (l : List Nat) (a : Nat) :
    l.foldl min a = a ∨ l.foldl min a ∈ l := by
  induction l generalizing a with
  | nil => exact Or.inl rfl
  | cons y ys ih =>
    rcases ih (min a y) with h | h
    · rcases Nat.le_total a y with hay | hya
      · rw [List.foldl_cons, h, Nat.min_eq_left hay]
        exact Or.inl rfl
      · rw [List.foldl_cons, h, Nat.min_eq_right hya]
        exact Or.inr (List.mem_cons_self y ys)
    · exact Or.inr (List.mem_cons_of_mem y h)

/-- C9: the TTL chosen for caching a request over a list of sections is the
minimum of the per-section TTLs (defaulting per unconfigured section), and
the default TTL for the empty list; hence the result is never cached longer
than its most volatile section allows. -/
theorem C9_min_ttl (sections : List String) :
    (sections = [] → get_ttl_for_sections sections = DEFAULT_CACHE_TTL) ∧
    (∀ s ∈ sections, get_ttl_for_sections sections ≤ sectionTtl s) ∧
    (sections ≠ [] → ∃ s ∈ sections, get_ttl_for_sections sections = sectionTtl s) := by
  refine ⟨fun h => by simp [h, get_ttl_for_sections], ?_, ?_⟩
  · intro s hs
    cases sections with
    | nil => cases hs
    | cons s0 ss =>
      show get_ttl_for_sections (s0 :: ss) ≤ sectionTtl s
      rw [get_ttl_for_sections]
      simp only [List.isEmpty_cons, List.map_cons]
      rcases List.mem_cons.mp hs with h | h
      · subst h
        exact foldl_min_le_init _ _
      · exact foldl_min_le_mem _ _ _ (List.mem_map_of_mem sectionTtl h)
  · intro hne
    cases sections with
    | nil => exact absurd rfl hne
    | cons s0 ss =>
      rw [get_ttl_for_sections]
      simp only [List.isEmpty_cons, List.map_cons]
      rcases foldl_min_mem (ss.map sectionTtl) (sectionTtl s0) with h | h
      · exact ⟨s0, List.mem_cons_self s0 ss, by simpa using h⟩
      · obtain ⟨s, hs, hval⟩ := List.mem_map.mp h
        exact ⟨s, List.mem_cons_of_mem s0 hs, by simp [← hval]⟩

/-- C9 witness: the chosen TTL at a concrete section list — the volatile
`new_trades` section (30 s) caps a multi-section request. -/
theorem C9_min_ttl_witness :
    get_ttl_for_sections ["futures", "new_trades"] ≤ sectionTtl "new_trades" ∧
    ∃ s ∈ ["futures", "new_trades"],
      get_ttl_for_sections ["futures", "new_trades"] = sectionTtl s :=
  ⟨(C9_min_ttl ["futures", "new_trades"]).2.1 "new_trades" (by decide),
   (C9_min_ttl ["futures", "new_trades"]).2.2 (by decide)⟩

/-! ## Claims C4 and C5 — TTL cache lemmas -/

theorem partitionGet_partitionSet_same (p : Partition V) (k : String) (v : V)
    (exp now : Nat) :
    partitionGet (partitionSet p k v exp) k now =
      if now < exp then some v else Option.none := by
  induction p with
  | nil => simp [partitionSet, partitionGet, List.find?]
  | cons e rest ih =>
    by_cases h : e.1 == k
    · simp [partitionSet, h, partitionGet, List.find?]
    · simpa [partitionSet, h, partitionGet, List.find?] using ih

theorem partitionGet_partitionSet_other (p : Partition V) {k k2 : String}
    (hk : k2 ≠ k) (v : V) (exp now : Nat) :
    partitionGet (partitionSet p k v exp) k2 now = partitionGet p k2 now := by
  have hbeq : (k == k2) = false := beq_false_of_ne (fun h => hk h.symm)
  induction p with
  | nil => simp [partitionSet, partitionGet, List.find?, hbeq]
  | cons e rest ih =>
    by_cases h : e.1 == k
    · have he : (e.1 == k2) = false := by
        have : e.1 = k := eq_of_beq h
        rw [this]; exact hbeq
      simp [partitionSet, h, partitionGet, List.find?, hbeq, he]
    · by_cases h2 : e.1 == k2
      · simp [partitionSet, h, partitionGet, List.find?, h2]
      · simpa [partitionSet, h, partitionGet, List.find?, h2] using ih

theorem getCacheFor_setInCaches_same (caches : List (Nat × Partition V))
    (ttl : Nat) (k : String) (v : V) (exp : Nat) :
    (RequestCache.mk (setInCaches caches ttl k v exp)).getCacheFor ttl =
      partitionSet ((RequestCache.mk caches).getCacheFor ttl) k v exp := by
  induction caches with
  | nil => simp [setInCaches, RequestCache.getCacheFor, List.find?]
  | cons e rest ih =>
    by_cases h : e.1 == ttl
    · simp [setInCaches, h, RequestCache.getCacheFor, List.find?, eq_of_beq h]
    · simpa [setInCaches, h, RequestCache.getCacheFor, List.find?] using ih

theorem getCacheFor_setInCaches_other (caches : List (Nat × Partition V))
    {ttl ttl2 : Nat} (hne : ttl2 ≠ ttl) (k : String) (v : V) (exp : Nat) :
    (RequestCache.mk (setInCaches caches ttl k v exp)).getCacheFor ttl2 =
      (RequestCache.mk caches).getCacheFor ttl2 := by
  have hbeq : (ttl == ttl2) = false := beq_false_of_ne (fun h => hne h.symm)
  induction caches with
  | nil => simp [setInCaches, RequestCache.getCacheFor, List.find?, hbeq]
  | cons e rest ih =>
    by_cases h : e.1 == ttl
    · have he : (e.1 == ttl2) = false := by
        rw [show e.1 = ttl from eq_of_beq h]; exact hbeq
      simp [setInCaches, h, RequestCache.getCacheFor, List.find?, he]
    · by_cases h2 : e.1 == ttl2
      · simp [setInCaches, h, RequestCache.getCacheFor, List.find?, h2]
      · simpa [setInCaches, h, RequestCache.getCacheFor, List.find?, h2] using ih

/-- C4: after `set(key, value, ttl)` at time `t0`, `get(key, ttl)` returns
the value at every time before the ttl has elapsed, and absent once
`t0 + ttl` has passed (simulated clock). -/
theorem C4_set_get_ttl {V : Type} (c : RequestCache V) (key : String)
    (ttl : Nat) (v : V) (t0 now : Nat) :
    (now < t0 + ttl → (c.set key v ttl t0).get key ttl now = some v) ∧
    (t0 + ttl ≤ now → (c.set key v ttl t0).get key ttl now = Option.none) := by
  have hmain : (c.set key v ttl t0).get key ttl now =
      if now < t0 + ttl then some v else Option.none := by
    show (RequestCache.mk (setInCaches c.caches ttl key v (t0 + ttl))).get key ttl now = _
    unfold RequestCache.get
    rw [show c = RequestCache.mk c.caches from rfl]
    rw [getCacheFor_setInCaches_same]
    exact partitionGet_partitionSet_same _ key v (t0 + ttl) now
  constructor
  · intro h; rw [hmain, if_pos h]
  · intro h; rw [hmain, if_neg (by omega)]

/-- C4 witness: concrete write then reads before and after expiry. -/
theorem C4_set_get_ttl_witness :
    ((RequestCache.empty.set "k" 42 60 100).get "k" 60 159 = some (42 : Nat)) ∧
    ((RequestCache.empty.set "k" 42 60 100).get "k" 60 160 = Option.none) :=
  ⟨(C4_set_get_ttl RequestCache.empty "k" 60 42 100 159).1 (by omega),
   (C4_set_get_ttl RequestCache.empty "k" 60 42 100 160).2 (by omega)⟩

/-- C5: distinct `ttl` arguments address independent partitions — a write
under `t1` never changes what `get` returns under `t2`, and writing the
same key under both leaves two independent entries with their own expiry. -/
theorem C5_partition_independence {V : Type} (c : RequestCache V)
    (key other : String) (v v1 v2 : V) (t1 t2 : Nat) (hne : t1 ≠ t2)
    (s s1 s2 now : Nat) :
    ((c.set key v t1 s).get other t2 now = c.get other t2 now) ∧
    (((c.set key v1 t1 s1).set key v2 t2 s2).get key t1 now =
       (c.set key v1 t1 s1).get key t1 now) ∧
    (((c.set key v1 t1 s1).set key v2 t2 s2).get key t1 now =
       if now < s1 + t1 then some v1 else Option.none) ∧
    (((c.set key v1 t1 s1).set key v2 t2 s2).get key t2 now =
       if now < s2 + t2 then some v2 else Option.none) := by
  have hwrite : ∀ (d : RequestCache V) (kk : String) (vv : V) (ss : Nat),
      (d.set kk vv t1 ss).get key t2 now = d.get key t2 now := by
    intro d kk vv ss
    show (RequestCache.mk (setInCaches d.caches t1 kk vv (ss + t1))).get key t2 now = _
    unfold RequestCache.get
    rw [show d = RequestCache.mk d.caches from rfl]
    rw [getCacheFor_setInCaches_other d.caches (fun h => hne h.symm)]
  have hwrite2 : ∀ (d : RequestCache V) (kk : String) (vv : V) (ss : Nat),
      (d.set kk vv t2 ss).get key t1 now = d.get key t1 now := by
    intro d kk vv ss
    show (RequestCache.mk (setInCaches d.caches t2 kk vv (ss + t2))).get key t1 now = _
    unfold RequestCache.get
    rw [show d = RequestCache.mk d.caches from rfl]
    rw [getCacheFor_setInCaches_other d.caches hne]
  have hother : (c.set key v t1 s).get other t2 now = c.get other t2 now := by
    show (RequestCache.mk (setInCaches c.caches t1 key v (s + t1))).get other t2 now = _
    unfold RequestCache.get
    rw [show c = RequestCache.mk c.caches from rfl]
    rw [getCacheFor_setInCaches_other c.caches (fun h => hne h.symm)]
  refine ⟨hother, hwrite2 _ _ _ _, ?_, ?_⟩
  · rw [hwrite2]
    exact (by
      have h1 := (C4_set_get_ttl c key t1 v1 s1 now).1
      have h2 := (C4_set_get_ttl c key t1 v1 s1 now).2
      by_cases h : now < s1 + t1
      · rw [if_pos h]; exact h1 h
      · rw [if_neg h]; exact h2 (by omega))
  · have h1 := (C4_set_get_ttl (c.set key v1 t1 s1) key t2 v2 s2 now).1
    have h2 := (C4_set_get_ttl (c.set key v1 t1 s1) key t2 v2 s2 now).2
    by_cases h : now < s2 + t2
    · rw [if_pos h]; exact h1 h
    · rw [if_neg h]; exact h2 (by omega)

/-- C5 witness: concrete same-key writes under TTLs 60 and 30. -/
theorem C5_partition_independence_witness :
    (((RequestCache.empty.set "k" 1 60 100).set "k" 2 30 100).get "k" 60 150
        = some (1 : Nat)) ∧
    (((RequestCache.empty.set "k" 1 60 100).set "k" 2 30 100).get "k" 30 150
        = Option.none) := by
  have h := C5_partition_independence (RequestCache.empty : RequestCache Nat)
    "k" "o" 1 1 2 60 30 (by omega) 100 100 100 150
  exact ⟨by rw [h.2.2.1]; rfl, by rw [h.2.2.2]; rfl⟩

/-! ## Claim C2 -/

theorem traceback_ne_empty (e : String) :
    "Traceback (most recent call last):\n" ++ e ≠ "" := by
  intro h
  have h2 := congrArg String.data h
  simp [String.data_append] at h2

theorem fetchSections_get {α : Type}
    (secs : List (String × (BaseParams → PyVal → Except String α) × PyVal))
    (params : BaseParams) (clock : String → Nat × Nat × String) (j : Nat)
    (hj : j < secs.length) (hj2 : j < (fetchSections secs params clock).length) :
    (fetchSections secs params clock).get ⟨j, hj2⟩ =
      ((secs.get ⟨j, hj⟩).1,
        run_section (secs.get ⟨j, hj⟩).2.1 params (secs.get ⟨j, hj⟩).2.2
          (timeoutFor (secs.get ⟨j, hj⟩).1) (clock (secs.get ⟨j, hj⟩).1).1
          (clock (secs.get ⟨j, hj⟩).1).2.1 (clock (secs.get ⟨j, hj⟩).1).2.2) := by
  unfold fetchSections
  rw [List.get_map]

/-- C2: an orchestration run over N requested sections in which section K's
fetcher raises and every other fetcher returns yields (never raises) a
result with exactly N entries keyed by the requested names; entry K has
status `error` with non-empty error text and every other entry has status
`ok` — one broken section never produces an overall failure. -/
theorem C2_orchestrator_isolation {α : Type}
    (secs : List (String × (BaseParams → PyVal → Except String α) × PyVal))
    (params : BaseParams) (clock : String → Nat × Nat × String) (K : Nat)
    (hK : K < secs.length)
    (hfail : ∃ e, (secs.get ⟨K, hK⟩).2.1 params (secs.get ⟨K, hK⟩).2.2 = .error e)
    (hok : ∀ j (hj : j < secs.length), j ≠ K →
      ∃ d, (secs.get ⟨j, hj⟩).2.1 params (secs.get ⟨j, hj⟩).2.2 = .ok d) :
    (fetchSections secs params clock).length = secs.length ∧
    (fetchSections secs params clock).map Prod.fst = secs.map Prod.fst ∧
    ((fetchSections secs params clock).get
        ⟨K, by simpa [fetchSections] using hK⟩).2.status = "error" ∧
    ((fetchSections secs params clock).get
        ⟨K, by simpa [fetchSections] using hK⟩).2.error_stack ≠ "" ∧
    (∀ j (hj : j < (fetchSections secs params clock).length), j ≠ K →
      ((fetchSections secs params clock).get ⟨j, hj⟩).2.status = "ok") := by
  obtain ⟨err, herr⟩ := hfail
  refine ⟨by simp [fetchSections], ?_, ?_, ?_, ?_⟩
  · show (secs.map _).map Prod.fst = secs.map Prod.fst
    rw [List.map_map]
    rfl
  · rw [fetchSections_get secs params clock K hK]
    unfold run_section
    rw [herr]
  · rw [fetchSections_get secs params clock K hK]
    unfold run_section
    rw [herr]
    exact traceback_ne_empty err
  · intro j hj hjK
    have hj2 : j < secs.length := by simpa [fetchSections] using hj
    obtain ⟨d, hd⟩ := hok j hj2 hjK
    rw [fetchSections_get secs params clock j hj2]
    unfold run_section
    rw [hd]

/-- C2 witness: three concrete sections of which the middle one raises. -/
theorem C2_orchestrator_isolation_witness :
    (fetchSections
        [("futures", fun _ _ => (Except.ok (PyVal.int 1) : Except String PyVal), .dict []),
         ("bonds", fun _ _ => (Except.error "boom" : Except String PyVal), .dict []),
         ("extra", fun _ _ => (Except.ok (PyVal.int 3) : Except String PyVal), .dict [])]
        ⟨"20250101", "20241231", ["A"], "LIVE"⟩
        (fun _ => (0, 1, "t"))).map Prod.fst = ["futures", "bonds", "extra"] ∧
    ((fetchSections
        [("futures", fun _ _ => (Except.ok (PyVal.int 1) : Except String PyVal), .dict []),
         ("bonds", fun _ _ => (Except.error "boom" : Except String PyVal), .dict []),
         ("extra", fun _ _ => (Except.ok (PyVal.int 3) : Except String PyVal), .dict [])]
        ⟨"20250101", "20241231", ["A"], "LIVE"⟩
        (fun _ => (0, 1, "t"))).get ⟨1, by simp [fetchSections]⟩).2.status = "error" ∧
    ((fetchSections
        [("futures", fun _ _ => (Except.ok (PyVal.int 1) : Except String PyVal), .dict []),
         ("bonds", fun _ _ => (Except.error "boom" : Except String PyVal), .dict []),
         ("extra", fun _ _ => (Except.ok (PyVal.int 3) : Except String PyVal), .dict [])]
        ⟨"20250101", "20241231", ["A"], "LIVE"⟩
        (fun _ => (0, 1, "t"))).get ⟨0, by simp [fetchSections]⟩).2.status = "ok" := by
  have h := C2_orchestrator_isolation
    [("futures", fun _ _ => (Except.ok (PyVal.int 1) : Except String PyVal), .dict []),
     ("bonds", fun _ _ => (Except.error "boom" : Except String PyVal), .dict []),
     ("extra", fun _ _ => (Except.ok (PyVal.int 3) : Except String PyVal), .dict [])]
    ⟨"20250101", "20241231", ["A"], "LIVE"⟩ (fun _ => (0, 1, "t")) 1
    (by simp)
    ⟨"boom", rfl⟩
    (fun j hj hjK => by
      have h3 : j < 3 := by simpa using hj
      interval_cases j
      · exact ⟨PyVal.int 1, rfl⟩
      · exact absurd rfl hjK
      · exact ⟨PyVal.int 3, rfl⟩)
  exact ⟨h.2.1, h.2.2.1, h.2.2.2.2 0 (by simp [fetchSections]) (by omega)⟩

/-! ## Claim C10 -/

theorem digitChar_toNat : ∀ x < 10, (Nat.digitChar x).toNat = 48 + x := by
  decide

/-- Code point of the window separator. -/
theorem colon_toNat : (':' : Char).toNat = 58 := rfl

/-- Source `"HH:MM"` strings compare (by Python code-point order) exactly as their
minute-of-day values do. -/
theorem fmtHM_le_iff (h1 m1 h2 m2 : Nat) (hh1 : h1 < 24) (hm1 : m1 < 60)
    (hh2 : h2 < 24) (hm2 : m2 < 60) :
    pyStrLe (fmtHM h1 m1) (fmtHM h2 m2) = true ↔
      h1 * 60 + m1 ≤ h2 * 60 + m2 := by
  show lexLe
    [Nat.digitChar (h1 / 10), Nat.digitChar (h1 % 10), ':',
     Nat.digitChar (m1 / 10), Nat.digitChar (m1 % 10)]
    [Nat.digitChar (h2 / 10), Nat.digitChar (h2 % 10), ':',
     Nat.digitChar (m2 / 10), Nat.digitChar (m2 % 10)] = true ↔ _
  rw [lexLe_cons, lexLe_cons, lexLe_cons, lexLe_cons, lexLe_cons]
  rw [digitChar_toNat (h1 / 10) (by omega), digitChar_toNat (h1 % 10) (by omega),
      digitChar_toNat (m1 / 10) (by omega), digitChar_toNat (m1 % 10) (by omega),
      digitChar_toNat (h2 / 10) (by omega), digitChar_toNat (h2 % 10) (by omega),
      digitChar_toNat (m2 / 10) (by omega), digitChar_toNat (m2 % 10) (by omega),
      colon_toNat]
  simp only [lexLe, Nat.lt_irrefl, false_or, true_and, and_true, eq_self_iff_true]
  omega

/-- The window predicate the spec describes, for the refinement comparison:
modelled from the spec's words — half-open `[start_time, end_time)`, start
included and end excluded, wrapping past midnight when start > end
(minute-of-day arithmetic). -/
def specHalfOpenWindow (s e n : Nat) : Prop :=
  if s ≤ e then s ≤ n ∧ n < e else s ≤ n ∨ n < e

/-- C7 counterexample: at current time exactly `end_time` (06:00 for the
22:00–06:00 overnight window) the code classifies in-window, while the
claimed half-open `[start, end)` window excludes it. -/
theorem C7_half_open_counterexample :
    _in_time_window "22:00" "06:00" "06:00" = true ∧
    ¬ specHalfOpenWindow (22 * 60) (6 * 60) (6 * 60) := by
  constructor
  · decide
  · intro h
    unfold specHalfOpenWindow at h
    rw [if_neg (by omega : ¬ (22 * 60 ≤ 6 * 60))] at h
    rcases h with h2 | h2 <;> omega

/-- C7 (amended): the in-window classifier treats the window as closed on
both ends — `[start_time, end_time]`, start AND end included — and treats
`start_time > end_time` as an overnight window wrapping past midnight; in
particular, for start 22:00 and end 06:00, 23:30 is in-window and 12:00 is
outside-window. -/
theorem C7_window_closed (sh sm eh em nh nm : Nat) (hsh : sh < 24)
    (hsm : sm < 60) (heh : eh < 24) (hem : em < 60) (hnh : nh < 24)
    (hnm : nm < 60) :
    _in_time_window (fmtHM sh sm) (fmtHM eh em) (fmtHM nh nm) = true ↔
      (if sh * 60 + sm ≤ eh * 60 + em then
        sh * 60 + sm ≤ nh * 60 + nm ∧ nh * 60 + nm ≤ eh * 60 + em
      else
        sh * 60 + sm ≤ nh * 60 + nm ∨ nh * 60 + nm ≤ eh * 60 + em) := by
  unfold _in_time_window
  by_cases hse : sh * 60 + sm ≤ eh * 60 + em
  · rw [if_pos ((fmtHM_le_iff sh sm eh em hsh hsm heh hem).mpr hse), if_pos hse,
        Bool.and_eq_true, fmtHM_le_iff sh sm nh nm hsh hsm hnh hnm,
        fmtHM_le_iff nh nm eh em hnh hnm heh hem]
  · have hf : pyStrLe (fmtHM sh sm) (fmtHM eh em) = false :=
      Bool.not_eq_true _ ▸ (fun h => hse ((fmtHM_le_iff sh sm eh em hsh hsm heh hem).mp h))
    rw [hf, if_neg Bool.false_ne_true, if_neg hse, Bool.or_eq_true,
        fmtHM_le_iff sh sm nh nm hsh hsm hnh hnm,
        fmtHM_le_iff nh nm eh em hnh hnm heh hem]

/-- C7 witness: the spec's two probe points on the 22:00–06:00 overnight
window. -/
theorem C7_window_closed_witness :
    _in_time_window "22:00" "06:00" "23:30" = true ∧
    _in_time_window "22:00" "06:00" "12:00" = false := by
  have e1 : fmtHM 22 0 = "22:00" := by decide
  have e2 : fmtHM 6 0 = "06:00" := by decide
  have h1 := C7_window_closed 22 0 6 0 23 30 (by decide) (by decide) (by decide)
    (by decide) (by decide) (by decide)
  have h2 := C7_window_closed 22 0 6 0 12 0 (by decide) (by decide) (by decide)
    (by decide) (by decide) (by decide)
  have e3 : fmtHM 23 30 = "23:30" := by decide
  have e4 : fmtHM 12 0 = "12:00" := by decide
  rw [e1, e2, e3] at h1
  rw [e1, e2, e4] at h2
  constructor
  · exact h1.mpr (by norm_num)
  · have : ¬ _in_time_window "22:00" "06:00" "12:00" = true := fun h => by
      have := h2.mp h
      rw [if_neg (by omega)] at this
      omega
    exact Bool.not_eq_true _ ▸ this

/-! ## Claim C8 -/

/-- C8: when a warmup job's fixed-parameter construction fails validation,
the worker sets that job's status to `config_error` with the failure
description and returns permanently — independent of how many ticks the
loop could have run, it performs no orchestration tick and no cache write —
and the status-table entries of every other job are unchanged. -/
theorem C8_config_error_disables_job (cfg : WarmupCfg) (msg : String)
    (h : build_from_dict cfg.fields = .error msg) :
    (∀ env fuel, _warmup_worker cfg env fuel =
      { statusTrace := [(cfg.name,
          { startingStatus with status := "config_error", last_error := some msg })],
        orch_count := 0, cache_writes := [], exited := true }) ∧
    (∀ env fuel (table : String → JobStatus) (other : String), other ≠ cfg.name →
      applyTrace table (_warmup_worker cfg env fuel).statusTrace other = table other) := by
  have hmain : ∀ env fuel, _warmup_worker cfg env fuel =
      { statusTrace := [(cfg.name,
          { startingStatus with status := "config_error", last_error := some msg })],
        orch_count := 0, cache_writes := [], exited := true } := by
    intro env fuel
    unfold _warmup_worker
    rw [h]
  refine ⟨hmain, ?_⟩
  intro env fuel table other hother
  rw [hmain]
  simp [applyTrace, hother]

/-- A warmup config whose fixed parameters fail validation (empty books). -/
def cfgBad : WarmupCfg :=
  { name := "BAD_JOB",
    fields := .dict [("env_date", .str "20250101"), ("pos_date", .str "20241231"),
                     ("books", .list []), ("time_of_day", .str "SOD")],
    start_time := "06:00", end_time := "18:00", interval_seconds := 60 }

/-- An arbitrary tick environment for the witness run. -/
def envW : Nat → TickEnv := fun _ =>
  { nowHM := "12:00", orch := .ok [], duration_ms := 5, nowIso := "t" }

/-- C8 witness: the concrete bad job exits with `config_error` after zero
ticks and leaves another job's status entry untouched. -/
theorem C8_config_error_disables_job_witness :
    _warmup_worker cfgBad envW 5 =
      { statusTrace := [("BAD_JOB",
          { startingStatus with
            status := "config_error"
            last_error := some "Missing required parameter: books" })],
        orch_count := 0, cache_writes := [], exited := true } ∧
    applyTrace (fun _ => startingStatus) (_warmup_worker cfgBad envW 5).statusTrace
      "LIVE_EXO" = startingStatus :=
  ⟨(C8_config_error_disables_job cfgBad "Missing required parameter: books" rfl).1
      envW 5,
   (C8_config_error_disables_job cfgBad "Missing required parameter: books" rfl).2
      envW 5 (fun _ => startingStatus) "LIVE_EXO" (by decide)⟩

/-! ## Claim C6 -/

/-- Empty server state (empty cache, nothing fetched yet). -/
def c6State0 : ServerState := { cache := [], fetch_log := [] }

/-- Wall clock for the scenario's section fetches. -/
def c6Clock : String → Nat × Nat × String :=
  fun _ => (1000, 1180, "2025-01-01T10:00:00+00:00")

/-- First request: `books=A,B`. -/
def c6Run1 : GetResponse × ServerState :=
  handler_get (some "20250101") (some "20241231") (some "A,B") (some "LIVE")
    c6State0 c6Clock "iso1"

/-- Second request: identical but `books=B,A`, against the state the first
request left behind. -/
def c6Run2 : GetResponse × ServerState :=
  handler_get (some "20250101") (some "20241231") (some "B,A") (some "LIVE")
    c6Run1.2 c6Clock "iso2"

/-- C6: end-to-end — the first request (books `A,B`) on an empty cache is a
miss that invokes each configured section fetcher exactly once and stores
the aggregate under the derived key; the second request (books `B,A`) is a
hit that returns the identical payload with no further fetcher invocation
and no state change. -/
theorem C6_end_to_end :
    c6Run1.1.cache_hit = false ∧ c6Run1.1.error = false ∧
    c6Run1.2.fetch_log = ["futures", "bonds"] ∧
    get_from_cache c6Run1.2.cache ("20250101", "20241231", ["A", "B"], "LIVE")
      = c6Run1.1.sections ∧
    c6Run2.1.cache_hit = true ∧ c6Run2.1.error = false ∧
    c6Run2.1.sections = c6Run1.1.sections ∧
    c6Run2.2.fetch_log = c6Run1.2.fetch_log ∧
    c6Run2.2.cache = c6Run1.2.cache :=
  ⟨rfl, rfl, rfl, rfl, rfl, rfl, rfl, rfl, rfl⟩

end RpmExo
